import Mathlib

set_option autoImplicit false

/-!
Shallow embedding of `src/index.ts` of the capacities-mcp repository: a small
MCP server exposing four tools (save_to_daily_note, save_weblink, get_spaces,
lookup) that each make at most one outbound HTTP call to the Capacities API.

JavaScript values flowing through the handlers are modelled by an inductive
`Json` type; `fetch` and `JSON.parse` are modelled as parameters bundled in a
`Runtime` structure so that theorems can quantify over upstream behaviour.
Each tool handler is a pure function returning its MCP outcome together with
the list of outbound HTTP requests it performed (in order), so that
call-count invariants are directly statable.
-/

/-- JSON values, the result domain of `JSON.parse` and the payload domain of
request bodies built by the handlers. -/
inductive Json where
  | null : Json
  | bool : Bool → Json
  | num : Int → Json
  | str : String → Json
  | arr : List Json → Json
  | obj : List (String × Json) → Json
deriving Repr

/-- JavaScript property access `j.name` (undefined modelled as `none`).
Only objects have (own) data properties coming from parsed JSON. -/
def Json.getField : Json → String → Option Json
  | .obj fields, name => (fields.find? (fun f => f.1 = name)).map (fun f => f.2)
  | _, _ => none

/-- Hex digit used when escaping control characters, as `JSON.stringify` does. -/
def hexDigit (n : Nat) : String :=
  if n < 10 then toString n
  else if n = 10 then "a" else if n = 11 then "b" else if n = 12 then "c"
  else if n = 13 then "d" else if n = 14 then "e" else "f"

/-- Escaping of one character inside a JSON string literal (`JSON.stringify`). -/
def jsonEscapeChar (c : Char) : String :=
  if c = '"' then "\\\""
  else if c = '\\' then "\\\\"
  else if c = '\n' then "\\n"
  else if c = '\r' then "\\r"
  else if c = '\t' then "\\t"
  else if c = '\x08' then "\\b"
  else if c = '\x0c' then "\\f"
  else if c.toNat < 32 then "\\u00" ++ hexDigit (c.toNat / 16) ++ hexDigit (c.toNat % 16)
  else String.singleton c

/-- JSON string literal serialization (`JSON.stringify` on a string). -/
def jsonEscape (s : String) : String :=
  "\"" ++ String.join (s.data.map jsonEscapeChar) ++ "\""

mutual

/-- Serialization of a JSON value, modelling `JSON.stringify` at line 37 of
the source (`body: body ? JSON.stringify(body) : undefined`). -/
def Json.render : Json → String
  | .null => "null"
  | .bool b => cond b "true" "false"
  | .num n => toString n
  | .str s => jsonEscape s
  | .arr xs => "[" ++ Json.renderElems xs ++ "]"
  | .obj fs => "\x7b" ++ Json.renderFields fs ++ "\x7d"

/-- Comma-separated serialization of array elements. -/
def Json.renderElems : List Json → String
  | [] => ""
  | [x] => Json.render x
  | x :: xs => Json.render x ++ "," ++ Json.renderElems xs

/-- Comma-separated serialization of object fields. -/
def Json.renderFields : List (String × Json) → String
  | [] => ""
  | [f] => jsonEscape f.1 ++ ":" ++ Json.render f.2
  | f :: fs => jsonEscape f.1 ++ ":" ++ Json.render f.2 ++ "," ++ Json.renderFields fs

end

mutual

/-- JavaScript string interpolation of a value, modelling template literals
such as `` `${result.title}` ``. -/
def Json.interp : Json → String
  | .null => "null"
  | .bool b => cond b "true" "false"
  | .num n => toString n
  | .str s => s
  | .arr xs => Json.interpElems xs
  | .obj _ => "[object Object]"

/-- Array interpolation: elements joined by commas (`Array.prototype.join`),
with `null` elements rendered as the empty string. -/
def Json.interpElems : List Json → String
  | [] => ""
  | [x] => Json.interpElem x
  | x :: xs => Json.interpElem x ++ "," ++ Json.interpElems xs

/-- One array element under `Array.prototype.join`: `null` becomes empty. -/
def Json.interpElem : Json → String
  | .null => ""
  | j => Json.interp j

end

/-- JavaScript truthiness of a possibly-undefined value (`none` = undefined). -/
def jsTruthy : Option Json → Bool
  | none => false
  | some .null => false
  | some (.bool b) => b
  | some (.num n) => n != 0
  | some (.str s) => s != ""
  | some (.arr _) => true
  | some (.obj _) => true

/-- JavaScript `x.length` on a parsed-JSON value (`none` = undefined). -/
def Json.jsLength : Json → Option Json
  | .arr xs => some (.num xs.length)
  | .str s => some (.num s.length)
  | .obj fields => (fields.find? (fun f => f.1 = "length")).map (fun f => f.2)
  | _ => none

/-- Interpolation `${j.name}` of a field that may be absent: JavaScript
renders `undefined` for a missing property. -/
def jsField (j : Json) (name : String) : String :=
  match j.getField name with
  | some v => Json.interp v
  | none => "undefined"

/-- Interpolation `${j.name ?? fallback}`: nullish coalescing replaces both
a missing property and an explicit `null` by the fallback. -/
def jsFieldCoalesce (j : Json) (name : String) (fallback : String) : String :=
  match j.getField name with
  | some .null => fallback
  | some v => Json.interp v
  | none => fallback

/-- Removal of leading whitespace from a character list, the building block
of the JavaScript `trim()` used at line 46 of the source. -/
def jsTrimLeftChars : List Char → List Char
  | [] => []
  | c :: cs => if c.isWhitespace then jsTrimLeftChars cs else c :: cs

/-- JavaScript `s.trim()`: strip whitespace from both ends. -/
def jsTrim (s : String) : String :=
  String.mk ((jsTrimLeftChars ((jsTrimLeftChars s.data).reverse)).reverse)

/-- JavaScript `s.slice(0, n)`: the first `n` characters of `s`. -/
def strTake (s : String) (n : Nat) : String := String.mk (s.data.take n)

/-- One outbound HTTP request as passed to `fetch` (line 30 of the source). -/
structure FetchRequest where
  url : String
  method : String
  headers : List (String × String)
  body : Option String
deriving DecidableEq, Repr

/-- One HTTP response as observed by `capacitiesRequest`: its status code and
the text of its body (`res.status`, `await res.text()`). -/
structure HttpResponse where
  status : Nat
  body : String
deriving DecidableEq, Repr

/-- The runtime a handler executes against: `fetch` (the upstream) and
`JSON.parse` (returning `none` when parsing would throw a SyntaxError). -/
structure Runtime where
  fetch : FetchRequest → HttpResponse
  parseJson : String → Option Json

/-- Process-wide configuration read at startup: `API_TOKEN` and
`DEFAULT_SPACE_ID` (lines 8-9 of the source). -/
structure Config where
  apiToken : String
  defaultSpaceId : String

/-- The fixed API origin (`API_BASE`, line 10). -/
def API_BASE : String := "https://api.capacities.io"

/-- Query-string construction for the optional `params` argument of
`capacitiesRequest` (lines 25-28). No caller in the source passes params. -/
def queryString (params : List (String × String)) : String :=
  String.intercalate "&" (params.map (fun p => p.1 ++ "=" ++ p.2))

/-- URL construction of `capacitiesRequest` (lines 24-28). -/
def capacitiesUrl (path : String) (params : Option (List (String × String))) : String :=
  match params with
  | none => API_BASE ++ path
  | some ps => API_BASE ++ path ++ "?" ++ queryString ps

/-- The headers attached to every outbound request (lines 32-36). -/
def capacitiesHeaders (apiToken : String) : List (String × String) :=
  [("Authorization", "Bearer " ++ apiToken),
   ("Content-Type", "application/json"),
   ("Accept", "application/json")]

/-- The `fetch` argument built by `capacitiesRequest` (lines 30-38): URL,
method, headers, and a JSON-serialized body when one is provided. -/
def mkCapacitiesFetchRequest (apiToken path method : String) (body : Option Json)
    (params : Option (List (String × String))) : FetchRequest :=
  { url := capacitiesUrl path params
    method := method
    headers := capacitiesHeaders apiToken
    body := body.map Json.render }

/-- The prefix of the error thrown on a non-2xx status (line 42). -/
def apiErrorMessage (status : Nat) (text : String) : String :=
  "Capacities API error " ++ toString status ++ ": " ++ text

/-- Fixed message of the SyntaxError thrown by `JSON.parse` on a bad body. -/
def parseErrorMessage : String := "SyntaxError: Unexpected token in JSON"

/-- Response handling of `capacitiesRequest` (lines 40-49): non-2xx status
throws an error carrying status and body text; an empty or whitespace-only
2xx body yields the empty object; otherwise the body is JSON-parsed. -/
def capacitiesResponse (parseJson : String → Option Json) (resp : HttpResponse) :
    Except String Json :=
  if resp.status < 200 ∨ 299 < resp.status then
    .error (apiErrorMessage resp.status resp.body)
  else if jsTrim resp.body = "" then
    .ok (Json.obj [])
  else
    match parseJson resp.body with
    | some j => .ok j
    | none => .error parseErrorMessage

/-- The whole of `capacitiesRequest` (lines 18-50): build the request, send
it, handle the response. Returns the outcome together with the request sent. -/
def capacitiesRequest (rt : Runtime) (apiToken path method : String)
    (body : Option Json) (params : Option (List (String × String))) :
    Except String Json × FetchRequest :=
  (capacitiesResponse rt.parseJson
      (rt.fetch (mkCapacitiesFetchRequest apiToken path method body params)),
   mkCapacitiesFetchRequest apiToken path method body params)

/-- Outcome of one tool invocation: a normal text reply, or a rejection of the
handler's promise (a failed tool invocation). -/
inductive ToolOutcome where
  | reply : String → ToolOutcome
  | failure : String → ToolOutcome
deriving DecidableEq, Repr

/-- The in-band error text returned when no workspace id is resolvable
(lines 109, 190, 298 of the source). -/
def missingSpaceText : String :=
  "Error: No spaceId provided and CAPACITIES_SPACE_ID is not set."

/-- Preview of the saved text in `capacities_save_to_daily_note` (line 121):
full text when at most 200 characters, else first 200 plus an ellipsis. -/
def dailyPreview (text : String) : String :=
  if text.length > 200 then strTake text 200 ++ "…" else text

/-- Success reply text of `capacities_save_to_daily_note` (line 126). -/
def dailyNoteReplyText (text : String) : String :=
  "✅ Сохранено в Daily Note:\n\n" ++ dailyPreview text

/-- Request body of `capacities_save_to_daily_note` (lines 115-119): spaceId,
mdText, and `noTimeStamp: true` only when the flag is set. -/
def dailyNoteBody (targetSpace text : String) (noTimestamp : Bool) : Json :=
  Json.obj ([("spaceId", .str targetSpace), ("mdText", .str text)] ++
    (if noTimestamp then [("noTimeStamp", .bool true)] else []))

/-- Handler of `capacities_save_to_daily_note` (lines 102-130). Returns the
outcome and the list of outbound requests performed, in order. -/
def capacities_save_to_daily_note (cfg : Config) (rt : Runtime)
    (text : String) (spaceId : Option String) (noTimestamp : Bool) :
    ToolOutcome × List FetchRequest :=
  if spaceId.getD cfg.defaultSpaceId = "" then
    (.reply missingSpaceText, [])
  else
    match capacitiesRequest rt cfg.apiToken "/save-to-daily-note" "POST"
        (some (dailyNoteBody (spaceId.getD cfg.defaultSpaceId) text noTimestamp)) none with
    | (.error e, req) => (.failure e, [req])
    | (.ok _, req) => (.reply (dailyNoteReplyText text), [req])

/-- A string-typed optional field spread into a request body only when
truthy: `...(title ? { titleOverwrite: title } : {})` omits both an absent
and an empty-string value. -/
def optStrField (name : String) : Option String → List (String × Json)
  | some s => if s = "" then [] else [(name, .str s)]
  | none => []

/-- Request body of `capacities_save_weblink` (lines 204-211): spaceId and
url always; overrides only when truthy; tags whenever provided (a JavaScript
array is truthy even when empty). -/
def weblinkBody (targetSpace url : String) (title description notes : Option String)
    (tags : Option (List String)) : Json :=
  Json.obj ([("spaceId", .str targetSpace), ("url", .str url)] ++
    optStrField "titleOverwrite" title ++
    optStrField "descriptionOverwrite" description ++
    optStrField "mdText" notes ++
    (match tags with
     | some ts => [("tags", .arr (ts.map Json.str))]
     | none => []))

/-- Success reply text of `capacities_save_weblink` (line 218). -/
def weblinkReplyText (result : Json) (url : String) : String :=
  "✅ Ссылка сохранена в Capacities:\n\n**" ++ jsFieldCoalesce result "title" url ++
    "**\n" ++ url ++ "\n\nID: " ++ jsFieldCoalesce result "id" "n/a"

/-- Handler of `capacities_save_weblink` (lines 183-222). -/
def capacities_save_weblink (cfg : Config) (rt : Runtime)
    (url : String) (title description notes : Option String)
    (tags : Option (List String)) (spaceId : Option String) :
    ToolOutcome × List FetchRequest :=
  if spaceId.getD cfg.defaultSpaceId = "" then
    (.reply missingSpaceText, [])
  else
    match capacitiesRequest rt cfg.apiToken "/save-weblink" "POST"
        (some (weblinkBody (spaceId.getD cfg.defaultSpaceId) url title description notes tags)) none with
    | (.error e, req) => (.failure e, [req])
    | (.ok result, req) => (.reply (weblinkReplyText result url), [req])

/-- JavaScript `Array.prototype.join` on a list of strings with a separator,
as used to assemble the bulleted replies. -/
def strJoin (sep : String) : List String → String
  | [] => ""
  | [x] => x
  | x :: xs => x ++ sep ++ strJoin sep xs

/-- One bulleted line of the `capacities_get_spaces` reply (line 251). -/
def spaceLine (s : Json) : String :=
  "• **" ++ jsField s "title" ++ "** — `" ++ jsField s "id" ++ "`"

/-- Reply text of `capacities_get_spaces` on a well-shaped response
(lines 250-259). -/
def spacesReplyText (spaces : List Json) : String :=
  "📚 Твои Capacities spaces:\n\n" ++ strJoin "\n" (spaces.map spaceLine)

/-- Continuation of `capacities_get_spaces` on a successful response
(lines 245-261): destructure `spaces` from the parsed result and format it;
when that property is not an array, `spaces.map` throws a TypeError. -/
def spacesOutcomeOfResult (j : Json) : ToolOutcome :=
  match j.getField "spaces" with
  | none => .failure "TypeError: Cannot read properties of undefined (reading 'map')"
  | some .null => .failure "TypeError: Cannot read properties of null (reading 'map')"
  | some (.arr spaces) => .reply (spacesReplyText spaces)
  | some _ => .failure "TypeError: spaces.map is not a function"

/-- Handler of `capacities_get_spaces` (lines 240-262). The handler takes no
arguments and checks no workspace id. -/
def capacities_get_spaces (cfg : Config) (rt : Runtime) :
    ToolOutcome × List FetchRequest :=
  match capacitiesRequest rt cfg.apiToken "/spaces" "GET" none none with
  | (.error e, req) => (.failure e, [req])
  | (.ok j, req) => (spacesOutcomeOfResult j, [req])

/-- Request body of `capacities_lookup` (line 311): `{ searchTerm, spaceId }`. -/
def lookupBody (searchTerm targetSpace : String) : Json :=
  Json.obj [("searchTerm", .str searchTerm), ("spaceId", .str targetSpace)]

/-- Reply text of `capacities_lookup` when no match is found (line 319). -/
def lookupNothingFoundText (searchTerm : String) : String :=
  "Ничего не найдено по запросу: \"" ++ searchTerm ++ "\""

/-- One bulleted entry of the `capacities_lookup` reply (line 326). -/
def lookupEntry (r : Json) : String :=
  "• **" ++ jsField r "title" ++ "**\n  ID: `" ++ jsField r "id" ++
    "`\n  Тип: " ++ jsField r "structureId"

/-- Reply text of `capacities_lookup` on matches (lines 325-334). -/
def lookupReplyText (searchTerm : String) (results : List Json) : String :=
  "🔍 Результаты для \"" ++ searchTerm ++ "\":\n\n" ++
    strJoin "\n\n" (results.map lookupEntry)

/-- Continuation of `capacities_lookup` on a successful response
(lines 308-336). After destructuring `results`, the source evaluates
`!results.length`: an undefined or null property throws, a falsy length takes
the nothing-found branch, and a truthy length of a non-array value throws at
`results.map`. -/
def lookupOutcomeOfResult (searchTerm : String) (j : Json) : ToolOutcome :=
  match j.getField "results" with
  | none => .failure "TypeError: Cannot read properties of undefined (reading 'length')"
  | some .null => .failure "TypeError: Cannot read properties of null (reading 'length')"
  | some r =>
    if jsTruthy r.jsLength then
      match r with
      | .arr results => .reply (lookupReplyText searchTerm results)
      | _ => .failure "TypeError: results.map is not a function"
    else
      .reply (lookupNothingFoundText searchTerm)

/-- Handler of `capacities_lookup` (lines 291-337). -/
def capacities_lookup (cfg : Config) (rt : Runtime)
    (searchTerm : String) (spaceId : Option String) :
    ToolOutcome × List FetchRequest :=
  if spaceId.getD cfg.defaultSpaceId = "" then
    (.reply missingSpaceText, [])
  else
    match capacitiesRequest rt cfg.apiToken "/lookup" "POST"
        (some (lookupBody searchTerm (spaceId.getD cfg.defaultSpaceId))) none with
    | (.error e, req) => (.failure e, [req])
    | (.ok j, req) => (lookupOutcomeOfResult searchTerm j, [req])

/-- Names of the four tools registered on the server. -/
def toolNames : List String :=
  ["capacities_save_to_daily_note", "capacities_save_weblink",
   "capacities_get_spaces", "capacities_lookup"]

/-- The startup diagnostic written when the credential is missing (line 13). -/
def tokenErrorText : String := "ERROR: CAPACITIES_TOKEN env var is required\n"

/-- Result of process startup: either an early exit with a diagnostic and an
exit code, or a running server with its configuration and registered tools. -/
inductive ProcessStart where
  | exited : String → Nat → ProcessStart
  | running : Config → List String → ProcessStart

/-- Startup (lines 8-15 and 59-338): environment variables default to the
empty string via `?? ""`; a falsy `API_TOKEN` (unset or empty) exits with
code 1 before any tool is registered. -/
def startProcess (envToken envSpaceId : Option String) : ProcessStart :=
  if envToken.getD "" = "" then
    .exited tokenErrorText 1
  else
    .running { apiToken := envToken.getD "", defaultSpaceId := envSpaceId.getD "" } toolNames

/-- Zod check on the optional weblink title: `z.string().max(500).optional()`. -/
def titleValid : Option String → Bool
  | none => true
  | some s => s.length ≤ 500

/-- Zod check on the optional weblink description: `.max(1000).optional()`. -/
def descriptionValid : Option String → Bool
  | none => true
  | some s => s.length ≤ 1000

/-- Zod check on the optional weblink notes: `.max(200000).optional()`. -/
def notesValid : Option String → Bool
  | none => true
  | some s => s.length ≤ 200000

/-- Zod check on the optional weblink tags: `z.array(z.string()).max(30)`. -/
def tagsValid : Option (List String) → Bool
  | none => true
  | some ts => ts.length ≤ 30

/-- Substring containment, used to state that an error message carries the
status code and the body text. -/
def strContains (hay needle : String) : Prop :=
  ∃ pre post, hay = pre ++ needle ++ post

/-- Bullet presence: whether the reply text contains the bullet character
that starts each formatted entry. -/
def hasBullet (s : String) : Prop := '•' ∈ s.data

instance (s : String) : Decidable (hasBullet s) :=
  inferInstanceAs (Decidable ('•' ∈ s.data))

/-- Number of bullet characters in a string; each formatted lookup entry and
each formatted space line starts with exactly one. -/
def bulletCount (s : String) : Nat := s.data.count '•'

/-- The outbound request built by `capacities_save_to_daily_note` once a
workspace id is resolved. -/
def dailyNoteRequest (cfg : Config) (targetSpace text : String) (nts : Bool) : FetchRequest :=
  mkCapacitiesFetchRequest cfg.apiToken "/save-to-daily-note" "POST"
    (some (dailyNoteBody targetSpace text nts)) none

/-- The outbound request built by `capacities_save_weblink` once a workspace
id is resolved. -/
def weblinkRequest (cfg : Config) (targetSpace url : String)
    (title description notes : Option String) (tags : Option (List String)) : FetchRequest :=
  mkCapacitiesFetchRequest cfg.apiToken "/save-weblink" "POST"
    (some (weblinkBody targetSpace url title description notes tags)) none

/-- The outbound request built by `capacities_get_spaces`. -/
def spacesRequest (cfg : Config) : FetchRequest :=
  mkCapacitiesFetchRequest cfg.apiToken "/spaces" "GET" none none

/-- The outbound request built by `capacities_lookup` once a workspace id is
resolved. -/
def lookupRequest (cfg : Config) (targetSpace term : String) : FetchRequest :=
  mkCapacitiesFetchRequest cfg.apiToken "/lookup" "POST"
    (some (lookupBody term targetSpace)) none

/-- A runtime whose upstream always answers with a fixed response. -/
def constRuntime (resp : HttpResponse) (parse : String → Option Json) : Runtime :=
  { fetch := fun _ => resp, parseJson := parse }

/-- Fixture runtime: every request is answered with status 200 and an empty
body, and parsing is never reached. -/
def rtEmpty200 : Runtime := constRuntime { status := 200, body := "" } (fun _ => none)

/-- Fixture runtime: every request is answered with status 500 and the body
text "server exploded". -/
def rt500 : Runtime := constRuntime { status := 500, body := "server exploded" } (fun _ => none)

/-- Fixture lookup matches: two well-shaped results. -/
def lookupResults2 : List Json :=
  [Json.obj [("id", Json.str "id-1"), ("structureId", Json.str "RootPage"),
     ("title", Json.str "First note")],
   Json.obj [("id", Json.str "id-2"), ("structureId", Json.str "MediaWebResource"),
     ("title", Json.str "Second note")]]

/-- Fixture runtime whose upstream returns the two lookup matches. -/
def rtLookup2 : Runtime :=
  constRuntime { status := 200, body := "nonempty" }
    (fun _ => some (Json.obj [("results", Json.arr lookupResults2)]))

/-- Fixture runtime whose upstream returns zero lookup matches. -/
def rtLookup0 : Runtime :=
  constRuntime { status := 200, body := "nonempty" }
    (fun _ => some (Json.obj [("results", Json.arr [])]))

/-- Fixture configuration with a configured default workspace id. -/
def cfgWithDefault : Config := { apiToken := "token123", defaultSpaceId := "space-1" }

/-- Fixture configuration with no configured default workspace id. -/
def cfgNoDefault : Config := { apiToken := "token123", defaultSpaceId := "" }

/-- The upstream answers every request with a 2xx status and a body that is
empty after trimming. -/
def respondsEmpty2xx (rt : Runtime) : Prop :=
  ∀ q, 200 ≤ (rt.fetch q).status ∧ (rt.fetch q).status ≤ 299 ∧ jsTrim (rt.fetch q).body = ""

/-- The upstream answers every request with the one fixed response. -/
def respondsWith (rt : Runtime) (resp : HttpResponse) : Prop :=
  ∀ q, rt.fetch q = resp

/-- Every response the upstream produces passes `capacitiesRequest`
successfully (2xx status and a parseable or empty body). -/
def upstreamOk (rt : Runtime) : Prop :=
  ∀ q, ∃ j, capacitiesResponse rt.parseJson (rt.fetch q) = .ok j

/-! ## Shared lemmas about the embedding -/

theorem strContains_self (s : String) : strContains s s :=
  ⟨"", "", by rw [String.empty_append, String.append_empty]⟩

theorem strContains_append_right (a : String) {h n : String} (hc : strContains h n) :
    strContains (a ++ h) n := by
  obtain ⟨pre, post, rfl⟩ := hc
  exact ⟨a ++ pre, post, by simp [String.append_assoc]⟩

theorem strContains_append_left {h n : String} (hc : strContains h n) (b : String) :
    strContains (h ++ b) n := by
  obtain ⟨pre, post, rfl⟩ := hc
  exact ⟨pre, post ++ b, by rw [String.append_assoc (pre ++ n)]⟩

theorem capacitiesResponse_empty2xx (parse : String → Option Json) (resp : HttpResponse)
    (h1 : 200 ≤ resp.status) (h2 : resp.status ≤ 299) (h3 : jsTrim resp.body = "") :
    capacitiesResponse parse resp = .ok (Json.obj []) := by
  unfold capacitiesResponse
  rw [if_neg (by omega), if_pos h3]

theorem capacitiesResponse_bad (parse : String → Option Json) (resp : HttpResponse)
    (h : resp.status < 200 ∨ 299 < resp.status) :
    capacitiesResponse parse resp = .error (apiErrorMessage resp.status resp.body) := by
  unfold capacitiesResponse
  rw [if_pos h]

theorem get_spaces_run (cfg : Config) (rt : Runtime) :
    capacities_get_spaces cfg rt =
      ((match capacitiesResponse rt.parseJson (rt.fetch (spacesRequest cfg)) with
        | .error e => ToolOutcome.failure e
        | .ok j => spacesOutcomeOfResult j),
       [spacesRequest cfg]) := by
  unfold capacities_get_spaces capacitiesRequest spacesRequest
  cases capacitiesResponse rt.parseJson
      (rt.fetch (mkCapacitiesFetchRequest cfg.apiToken "/spaces" "GET" none none)) <;> rfl

theorem daily_note_run (cfg : Config) (rt : Runtime) (text : String)
    (sid : Option String) (nts : Bool) (h : sid.getD cfg.defaultSpaceId ≠ "") :
    capacities_save_to_daily_note cfg rt text sid nts =
      ((match capacitiesResponse rt.parseJson
            (rt.fetch (dailyNoteRequest cfg (sid.getD cfg.defaultSpaceId) text nts)) with
        | .error e => ToolOutcome.failure e
        | .ok _ => ToolOutcome.reply (dailyNoteReplyText text)),
       [dailyNoteRequest cfg (sid.getD cfg.defaultSpaceId) text nts]) := by
  unfold capacities_save_to_daily_note capacitiesRequest dailyNoteRequest
  rw [if_neg h]
  cases capacitiesResponse rt.parseJson (rt.fetch (mkCapacitiesFetchRequest cfg.apiToken
      "/save-to-daily-note" "POST" (some (dailyNoteBody (sid.getD cfg.defaultSpaceId) text nts))
      none)) <;> rfl

theorem weblink_run (cfg : Config) (rt : Runtime) (url : String)
    (title description notes : Option String) (tags : Option (List String))
    (sid : Option String) (h : sid.getD cfg.defaultSpaceId ≠ "") :
    capacities_save_weblink cfg rt url title description notes tags sid =
      ((match capacitiesResponse rt.parseJson
            (rt.fetch (weblinkRequest cfg (sid.getD cfg.defaultSpaceId) url title description
              notes tags)) with
        | .error e => ToolOutcome.failure e
        | .ok result => ToolOutcome.reply (weblinkReplyText result url)),
       [weblinkRequest cfg (sid.getD cfg.defaultSpaceId) url title description notes tags]) := by
  unfold capacities_save_weblink capacitiesRequest weblinkRequest
  rw [if_neg h]
  cases capacitiesResponse rt.parseJson (rt.fetch (mkCapacitiesFetchRequest cfg.apiToken
      "/save-weblink" "POST" (some (weblinkBody (sid.getD cfg.defaultSpaceId) url title
      description notes tags)) none)) <;> rfl

theorem lookup_run (cfg : Config) (rt : Runtime) (term : String)
    (sid : Option String) (h : sid.getD cfg.defaultSpaceId ≠ "") :
    capacities_lookup cfg rt term sid =
      ((match capacitiesResponse rt.parseJson
            (rt.fetch (lookupRequest cfg (sid.getD cfg.defaultSpaceId) term)) with
        | .error e => ToolOutcome.failure e
        | .ok j => lookupOutcomeOfResult term j),
       [lookupRequest cfg (sid.getD cfg.defaultSpaceId) term]) := by
  unfold capacities_lookup capacitiesRequest lookupRequest
  rw [if_neg h]
  cases capacitiesResponse rt.parseJson (rt.fetch (mkCapacitiesFetchRequest cfg.apiToken
      "/lookup" "POST" (some (lookupBody term (sid.getD cfg.defaultSpaceId))) none)) <;> rfl

theorem daily_note_missing (cfg : Config) (rt : Runtime) (text : String)
    (sid : Option String) (nts : Bool) (h : sid.getD cfg.defaultSpaceId = "") :
    capacities_save_to_daily_note cfg rt text sid nts = (.reply missingSpaceText, []) := by
  unfold capacities_save_to_daily_note
  rw [if_pos h]

theorem weblink_missing (cfg : Config) (rt : Runtime) (url : String)
    (title description notes : Option String) (tags : Option (List String))
    (sid : Option String) (h : sid.getD cfg.defaultSpaceId = "") :
    capacities_save_weblink cfg rt url title description notes tags sid =
      (.reply missingSpaceText, []) := by
  unfold capacities_save_weblink
  rw [if_pos h]

theorem lookup_missing (cfg : Config) (rt : Runtime) (term : String)
    (sid : Option String) (h : sid.getD cfg.defaultSpaceId = "") :
    capacities_lookup cfg rt term sid = (.reply missingSpaceText, []) := by
  unfold capacities_lookup
  rw [if_pos h]

/-! ## Claim C1 -/

/-- C1 counterexample: with no explicit spaceId argument (the tool declares
none) and no configured default workspace id, `capacities_get_spaces` still
performs one outbound HTTP call and does not return the textual
missing-workspace error reply, so the claim fails for one of the four tools. -/
theorem capacities_c1_counterexample :
    (capacities_get_spaces cfgNoDefault rtEmpty200).2.length = 1
    ∧ (capacities_get_spaces cfgNoDefault rtEmpty200).1 ≠ ToolOutcome.reply missingSpaceText := by
  constructor
  · rfl
  · decide

/-- C1 (amended): for the three tools that accept a spaceId argument
(save_to_daily_note, save_weblink, lookup), an invocation with no explicit
spaceId and no configured default workspace id returns the textual
missing-workspace error reply and performs zero outbound HTTP calls;
get_spaces takes no spaceId, never checks the workspace id, and performs its
one outbound call regardless. -/
theorem capacities_c1_missing_space (cfg : Config) (rt : Runtime)
    (text url term : String) (title description notes : Option String)
    (tags : Option (List String)) (nts : Bool) (h : cfg.defaultSpaceId = "") :
    capacities_save_to_daily_note cfg rt text none nts = (.reply missingSpaceText, [])
    ∧ capacities_save_weblink cfg rt url title description notes tags none =
        (.reply missingSpaceText, [])
    ∧ capacities_lookup cfg rt term none = (.reply missingSpaceText, [])
    ∧ (capacities_get_spaces cfg rt).2.length = 1 := by
  refine ⟨daily_note_missing cfg rt text none nts h,
    weblink_missing cfg rt url title description notes tags none h,
    lookup_missing cfg rt term none h, ?_⟩
  rw [get_spaces_run]
  rfl

/-- C1 witness: the amended theorem applied at a concrete configuration with
an empty default workspace id. -/
theorem capacities_c1_missing_space_witness :
    capacities_save_to_daily_note cfgNoDefault rtEmpty200 "hello" none false =
        (.reply missingSpaceText, [])
    ∧ capacities_save_weblink cfgNoDefault rtEmpty200 "https://example.com"
        none none none none none = (.reply missingSpaceText, [])
    ∧ capacities_lookup cfgNoDefault rtEmpty200 "foo" none = (.reply missingSpaceText, [])
    ∧ (capacities_get_spaces cfgNoDefault rtEmpty200).2.length = 1 :=
  capacities_c1_missing_space cfgNoDefault rtEmpty200 "hello" "https://example.com" "foo"
    none none none none false rfl

/-! ## Claim C2 -/

/-- C2 counterexample: a `capacities_get_spaces` invocation whose outbound
call receives status 200 with an empty body does not succeed — it fails with
a TypeError, because the empty structured result has no `spaces` array. -/
theorem capacities_c2_counterexample :
    (capacities_get_spaces cfgWithDefault rtEmpty200).1 =
      ToolOutcome.failure "TypeError: Cannot read properties of undefined (reading 'map')" := by
  rfl

/-- C2 (amended): the shared request helper treats a 2xx response with an
empty or whitespace-only body as a successful empty structured result, never
a parse error; `save_to_daily_note` and `save_weblink` invocations then
succeed, while `get_spaces` and `lookup` fail with a TypeError because the
empty result lacks the array property they destructure. -/
theorem capacities_c2_empty_body (parse : String → Option Json) (resp : HttpResponse)
    (cfg : Config) (rt : Runtime) (text url term : String)
    (title description notes : Option String) (tags : Option (List String))
    (sid : Option String) (nts : Bool)
    (h1 : 200 ≤ resp.status) (h2 : resp.status ≤ 299) (h3 : jsTrim resp.body = "")
    (hrt : respondsEmpty2xx rt) (hspace : sid.getD cfg.defaultSpaceId ≠ "") :
    capacitiesResponse parse resp = .ok (Json.obj [])
    ∧ (capacities_save_to_daily_note cfg rt text sid nts).1 =
        .reply (dailyNoteReplyText text)
    ∧ (capacities_save_weblink cfg rt url title description notes tags sid).1 =
        .reply (weblinkReplyText (Json.obj []) url)
    ∧ (capacities_get_spaces cfg rt).1 =
        .failure "TypeError: Cannot read properties of undefined (reading 'map')"
    ∧ (capacities_lookup cfg rt term sid).1 =
        .failure "TypeError: Cannot read properties of undefined (reading 'length')" := by
  have key : ∀ q, capacitiesResponse rt.parseJson (rt.fetch q) = .ok (Json.obj []) :=
    fun q => capacitiesResponse_empty2xx _ _ (hrt q).1 (hrt q).2.1 (hrt q).2.2
  refine ⟨capacitiesResponse_empty2xx parse resp h1 h2 h3, ?_, ?_, ?_, ?_⟩
  · rw [daily_note_run cfg rt text sid nts hspace, key]
  · rw [weblink_run cfg rt url title description notes tags sid hspace, key]
  · rw [get_spaces_run, key]
    rfl
  · rw [lookup_run cfg rt term sid hspace, key]
    rfl

/-- C2 witness: the amended theorem applied at status 204 with a
whitespace-only body and a runtime answering 200 with an empty body. -/
theorem capacities_c2_empty_body_witness :
    capacitiesResponse (fun _ => none) { status := 204, body := " " } = .ok (Json.obj [])
    ∧ (capacities_save_to_daily_note cfgWithDefault rtEmpty200 "hi" none false).1 =
        .reply (dailyNoteReplyText "hi")
    ∧ (capacities_save_weblink cfgWithDefault rtEmpty200 "https://example.com"
        none none none none none).1 =
        .reply (weblinkReplyText (Json.obj []) "https://example.com")
    ∧ (capacities_get_spaces cfgWithDefault rtEmpty200).1 =
        .failure "TypeError: Cannot read properties of undefined (reading 'map')"
    ∧ (capacities_lookup cfgWithDefault rtEmpty200 "foo" none).1 =
        .failure "TypeError: Cannot read properties of undefined (reading 'length')" :=
  capacities_c2_empty_body (fun _ => none) { status := 204, body := " " }
    cfgWithDefault rtEmpty200 "hi" "https://example.com" "foo" none none none none none false
    (by decide) (by decide) (by decide)
    (fun q => ⟨(by decide : (200 : Nat) ≤ 200), (by decide : (200 : Nat) ≤ 299), rfl⟩)
    (by decide)

/-! ## Claim C3 -/

/-- C3: when the outbound call of any tool receives a non-2xx response, the
invocation fails with the error thrown by the shared helper — which carries
the numeric status code and the response body text as substrings — no
success reply is produced, and exactly one outbound call was made (no
retry). -/
theorem capacities_c3_upstream_error (cfg : Config) (rt : Runtime) (resp : HttpResponse)
    (text url term : String) (title description notes : Option String)
    (tags : Option (List String)) (sid : Option String) (nts : Bool)
    (hresp : respondsWith rt resp) (hbad : resp.status < 200 ∨ 299 < resp.status)
    (hspace : sid.getD cfg.defaultSpaceId ≠ "") :
    capacities_save_to_daily_note cfg rt text sid nts =
      (.failure (apiErrorMessage resp.status resp.body),
       [dailyNoteRequest cfg (sid.getD cfg.defaultSpaceId) text nts])
    ∧ capacities_save_weblink cfg rt url title description notes tags sid =
      (.failure (apiErrorMessage resp.status resp.body),
       [weblinkRequest cfg (sid.getD cfg.defaultSpaceId) url title description notes tags])
    ∧ capacities_lookup cfg rt term sid =
      (.failure (apiErrorMessage resp.status resp.body),
       [lookupRequest cfg (sid.getD cfg.defaultSpaceId) term])
    ∧ capacities_get_spaces cfg rt =
      (.failure (apiErrorMessage resp.status resp.body), [spacesRequest cfg])
    ∧ strContains (apiErrorMessage resp.status resp.body) (toString resp.status)
    ∧ strContains (apiErrorMessage resp.status resp.body) resp.body := by
  have key : ∀ q, capacitiesResponse rt.parseJson (rt.fetch q) =
      .error (apiErrorMessage resp.status resp.body) := by
    intro q
    rw [hresp q]
    exact capacitiesResponse_bad rt.parseJson resp hbad
  refine ⟨?_, ?_, ?_, ?_, ?_, ?_⟩
  · rw [daily_note_run cfg rt text sid nts hspace, key]
  · rw [weblink_run cfg rt url title description notes tags sid hspace, key]
  · rw [lookup_run cfg rt term sid hspace, key]
  · rw [get_spaces_run, key]
  · exact strContains_append_left (strContains_append_left
      (strContains_append_right "Capacities API error " (strContains_self (toString resp.status)))
      ": ") resp.body
  · exact strContains_append_right
      ("Capacities API error " ++ toString resp.status ++ ": ") (strContains_self resp.body)

/-- C3 witness: status 500 with body "server exploded" makes the
save_to_daily_note invocation fail with a message containing "500" and
"server exploded". -/
theorem capacities_c3_upstream_error_witness :
    capacities_save_to_daily_note cfgWithDefault rt500 "hi" none false =
      (.failure (apiErrorMessage 500 "server exploded"),
       [dailyNoteRequest cfgWithDefault "space-1" "hi" false])
    ∧ strContains (apiErrorMessage 500 "server exploded") "500"
    ∧ strContains (apiErrorMessage 500 "server exploded") "server exploded" := by
  have h := capacities_c3_upstream_error cfgWithDefault rt500
    { status := 500, body := "server exploded" } "hi" "https://example.com" "foo"
    none none none none none false (fun _ => rfl) (by decide) (by decide)
  exact ⟨h.1, h.2.2.2.2.1, h.2.2.2.2.2⟩

/-! ## Claim C4 -/

/-- C4: on a successful upstream response, save_to_daily_note replies with
the full text verbatim as the preview when its length is at most 200, and
with exactly the first 200 characters followed by the ellipsis character
when the length exceeds 200. -/
theorem capacities_c4_preview (cfg : Config) (rt : Runtime) (text : String)
    (sid : Option String) (nts : Bool)
    (hspace : sid.getD cfg.defaultSpaceId ≠ "") (hok : upstreamOk rt) :
    (text.length ≤ 200 →
      (capacities_save_to_daily_note cfg rt text sid nts).1 =
        .reply ("✅ Сохранено в Daily Note:\n\n" ++ text))
    ∧ (200 < text.length →
      (capacities_save_to_daily_note cfg rt text sid nts).1 =
        .reply ("✅ Сохранено в Daily Note:\n\n" ++ (strTake text 200 ++ "…"))) := by
  obtain ⟨j, hj⟩ := hok (dailyNoteRequest cfg (sid.getD cfg.defaultSpaceId) text nts)
  rw [daily_note_run cfg rt text sid nts hspace]
  constructor
  · intro hlen
    simp only [hj]
    unfold dailyNoteReplyText dailyPreview
    rw [if_neg (by omega)]
  · intro hlen
    simp only [hj]
    unfold dailyNoteReplyText dailyPreview
    rw [if_pos (by omega)]

set_option maxRecDepth 4096

/-- C4 witness: the theorem applied at a 2-character text and at a text of
exactly 201 characters. -/
theorem capacities_c4_preview_witness :
    (capacities_save_to_daily_note cfgWithDefault rtEmpty200 "hi" none false).1 =
      .reply ("✅ Сохранено в Daily Note:\n\n" ++ "hi")
    ∧ (capacities_save_to_daily_note cfgWithDefault rtEmpty200
        (String.mk (List.replicate 201 'a')) none false).1 =
      .reply ("✅ Сохранено в Daily Note:\n\n" ++
        (strTake (String.mk (List.replicate 201 'a')) 200 ++ "…")) :=
  ⟨(capacities_c4_preview cfgWithDefault rtEmpty200 "hi" none false
      (by decide) (fun _ => ⟨Json.obj [], rfl⟩)).1 (by decide),
   (capacities_c4_preview cfgWithDefault rtEmpty200 (String.mk (List.replicate 201 'a'))
      none false (by decide) (fun _ => ⟨Json.obj [], rfl⟩)).2 (by decide)⟩

/-! ## Claim C5 -/

/-- C5: a save_weblink invocation given only a url sends a request body that
is exactly the two-field object of the resolved workspace id and the url (no
override fields), and when the upstream result has neither a title nor an id
property, the reply shows the raw url in place of the title and the literal
"n/a" in place of the id. -/
theorem capacities_c5_weblink_minimal (cfg : Config) (rt : Runtime) (url : String)
    (sid : Option String)
    (hspace : sid.getD cfg.defaultSpaceId ≠ "")
    (hresult : ∀ q, ∃ j, capacitiesResponse rt.parseJson (rt.fetch q) = .ok j
        ∧ j.getField "title" = none ∧ j.getField "id" = none) :
    weblinkBody (sid.getD cfg.defaultSpaceId) url none none none none =
      Json.obj [("spaceId", Json.str (sid.getD cfg.defaultSpaceId)), ("url", Json.str url)]
    ∧ (capacities_save_weblink cfg rt url none none none none sid).2 =
        [weblinkRequest cfg (sid.getD cfg.defaultSpaceId) url none none none none]
    ∧ (capacities_save_weblink cfg rt url none none none none sid).1 =
        .reply ("✅ Ссылка сохранена в Capacities:\n\n**" ++ url ++ "**\n" ++ url ++
          "\n\nID: " ++ "n/a") := by
  obtain ⟨j, hj, htitle, hid⟩ := hresult
    (weblinkRequest cfg (sid.getD cfg.defaultSpaceId) url none none none none)
  refine ⟨rfl, ?_, ?_⟩
  · rw [weblink_run cfg rt url none none none none sid hspace]
  · rw [weblink_run cfg rt url none none none none sid hspace]
    simp only [hj]
    unfold weblinkReplyText jsFieldCoalesce
    rw [htitle, hid]

/-- C5 witness: the theorem applied at a concrete url against an upstream
whose result is the empty object. -/
theorem capacities_c5_weblink_minimal_witness :
    weblinkBody "space-1" "https://example.com" none none none none =
      Json.obj [("spaceId", Json.str "space-1"), ("url", Json.str "https://example.com")]
    ∧ (capacities_save_weblink cfgWithDefault rtEmpty200 "https://example.com"
        none none none none none).2 =
        [weblinkRequest cfgWithDefault "space-1" "https://example.com" none none none none]
    ∧ (capacities_save_weblink cfgWithDefault rtEmpty200 "https://example.com"
        none none none none none).1 =
        .reply ("✅ Ссылка сохранена в Capacities:\n\n**" ++ "https://example.com" ++ "**\n" ++
          "https://example.com" ++ "\n\nID: " ++ "n/a") :=
  capacities_c5_weblink_minimal cfgWithDefault rtEmpty200 "https://example.com" none
    (by decide) (fun _ => ⟨Json.obj [], rfl, rfl, rfl⟩)

/-! ## Claim C6 -/

theorem hasBullet_append (a b : String) : hasBullet (a ++ b) ↔ hasBullet a ∨ hasBullet b := by
  simp [hasBullet, String.data_append]

theorem bulletCount_append (a b : String) :
    bulletCount (a ++ b) = bulletCount a + bulletCount b := by
  simp [bulletCount, String.data_append]

theorem bulletCount_eq_zero {s : String} (h : ¬ hasBullet s) : bulletCount s = 0 :=
  List.count_eq_zero.mpr h

theorem lookupEntry_count (r : Json)
    (h1 : ¬ hasBullet (jsField r "title")) (h2 : ¬ hasBullet (jsField r "id"))
    (h3 : ¬ hasBullet (jsField r "structureId")) :
    bulletCount (lookupEntry r) = 1 := by
  unfold lookupEntry
  rw [bulletCount_append, bulletCount_append, bulletCount_append, bulletCount_append,
    bulletCount_append, bulletCount_eq_zero h1, bulletCount_eq_zero h2, bulletCount_eq_zero h3]
  decide

theorem strJoin_lookup_count (rs : List Json)
    (h : ∀ r ∈ rs, ¬ hasBullet (jsField r "title") ∧ ¬ hasBullet (jsField r "id")
        ∧ ¬ hasBullet (jsField r "structureId")) :
    bulletCount (strJoin "\n\n" (rs.map lookupEntry)) = rs.length := by
  induction rs with
  | nil => rfl
  | cons r rest ih =>
    obtain ⟨h1, h2, h3⟩ := h r (by simp)
    cases rest with
    | nil =>
      show bulletCount (lookupEntry r) = 1
      exact lookupEntry_count r h1 h2 h3
    | cons r2 rest2 =>
      have ih2 := ih (fun x hx => h x (List.mem_cons_of_mem r hx))
      show bulletCount (lookupEntry r ++ "\n\n" ++
        strJoin "\n\n" (List.map lookupEntry (r2 :: rest2))) = (r :: r2 :: rest2).length
      rw [bulletCount_append, bulletCount_append, lookupEntry_count r h1 h2 h3, ih2]
      have hs : bulletCount "\n\n" = 0 := by decide
      rw [hs]
      simp [Nat.add_comm]

/-- C6: a lookup invocation whose upstream returns zero matches replies with
the nothing-found message, which contains the literal search term and (when
the term itself is bullet-free) has no bulleted entries; an upstream
returning N matches yields the formatted reply whose bulleted entries are
the matches in upstream order, each entry containing that match's title,
identifier and content type, with exactly N bullets in the reply. -/
theorem capacities_c6_lookup (cfg : Config) (rt : Runtime) (term : String)
    (sid : Option String) (results : List Json)
    (hspace : sid.getD cfg.defaultSpaceId ≠ "")
    (hresult : ∀ q, ∃ j, capacitiesResponse rt.parseJson (rt.fetch q) = .ok j
        ∧ j.getField "results" = some (Json.arr results)) :
    (results = [] →
      (capacities_lookup cfg rt term sid).1 = .reply (lookupNothingFoundText term)
      ∧ strContains (lookupNothingFoundText term) term
      ∧ (¬ hasBullet term → ¬ hasBullet (lookupNothingFoundText term)))
    ∧ (results ≠ [] →
      (capacities_lookup cfg rt term sid).1 = .reply (lookupReplyText term results))
    ∧ (results.map lookupEntry).length = results.length
    ∧ (∀ r ∈ results,
        strContains (lookupEntry r) (jsField r "title")
        ∧ strContains (lookupEntry r) (jsField r "id")
        ∧ strContains (lookupEntry r) (jsField r "structureId"))
    ∧ (¬ hasBullet term →
      (∀ r ∈ results, ¬ hasBullet (jsField r "title") ∧ ¬ hasBullet (jsField r "id")
          ∧ ¬ hasBullet (jsField r "structureId")) →
      bulletCount (lookupReplyText term results) = results.length) := by
  obtain ⟨j, hj, hr⟩ := hresult (lookupRequest cfg (sid.getD cfg.defaultSpaceId) term)
  refine ⟨?_, ?_, by simp, ?_, ?_⟩
  · rintro rfl
    refine ⟨?_, ⟨"Ничего не найдено по запросу: \"", "\"", rfl⟩, ?_⟩
    · rw [lookup_run cfg rt term sid hspace]
      simp [hj, lookupOutcomeOfResult, hr, Json.jsLength, jsTruthy]
    · intro hnb
      unfold lookupNothingFoundText
      simp only [hasBullet_append]
      rintro ((hA | hT) | hQ)
      · exact absurd hA (by decide)
      · exact hnb hT
      · exact absurd hQ (by decide)
  · intro hne
    rw [lookup_run cfg rt term sid hspace]
    have hlen : (results.length : Int) ≠ 0 := by
      simp only [ne_eq, Int.natCast_eq_zero, List.length_eq_zero]
      exact hne
    simp [hj, lookupOutcomeOfResult, hr, Json.jsLength, jsTruthy, hlen]
  · intro r _
    refine ⟨?_, ?_, ?_⟩
    · exact strContains_append_left (strContains_append_left (strContains_append_left
        (strContains_append_left (strContains_append_right "• **"
          (strContains_self (jsField r "title"))) "**\n  ID: `") (jsField r "id"))
        "`\n  Тип: ") (jsField r "structureId")
    · exact strContains_append_left (strContains_append_left (strContains_append_right
        ("• **" ++ jsField r "title" ++ "**\n  ID: `")
        (strContains_self (jsField r "id"))) "`\n  Тип: ") (jsField r "structureId")
    · exact strContains_append_right
        ("• **" ++ jsField r "title" ++ "**\n  ID: `" ++ jsField r "id" ++ "`\n  Тип: ")
        (strContains_self (jsField r "structureId"))
  · intro hterm hfields
    unfold lookupReplyText
    rw [bulletCount_append, bulletCount_append, bulletCount_append,
      bulletCount_eq_zero hterm, strJoin_lookup_count results hfields]
    have hA : bulletCount "🔍 Результаты для \"" = 0 := by decide
    have hB : bulletCount "\":\n\n" = 0 := by decide
    rw [hA, hB]
    omega

/-- C6 witness: the theorem applied to an upstream returning zero matches and
to an upstream returning two matches. -/
theorem capacities_c6_lookup_witness :
    (capacities_lookup cfgWithDefault rtLookup0 "Foo" none).1 =
      .reply (lookupNothingFoundText "Foo")
    ∧ strContains (lookupNothingFoundText "Foo") "Foo"
    ∧ (capacities_lookup cfgWithDefault rtLookup2 "Foo" none).1 =
      .reply (lookupReplyText "Foo" lookupResults2)
    ∧ bulletCount (lookupReplyText "Foo" lookupResults2) = 2 := by
  have hfields : ∀ r ∈ lookupResults2, ¬ hasBullet (jsField r "title")
      ∧ ¬ hasBullet (jsField r "id") ∧ ¬ hasBullet (jsField r "structureId") := by
    intro r hr
    simp only [lookupResults2, List.mem_cons, List.not_mem_nil, or_false] at hr
    rcases hr with rfl | rfl <;>
      refine ⟨?_, ?_, ?_⟩ <;> simp [jsField, Json.getField, Json.interp, hasBullet]
  have h0 := capacities_c6_lookup cfgWithDefault rtLookup0 "Foo" none [] (by decide)
    (fun _ => ⟨Json.obj [("results", Json.arr [])], rfl, rfl⟩)
  have h2 := capacities_c6_lookup cfgWithDefault rtLookup2 "Foo" none lookupResults2 (by decide)
    (fun _ => ⟨Json.obj [("results", Json.arr lookupResults2)], rfl, rfl⟩)
  exact ⟨(h0.1 rfl).1, (h0.1 rfl).2.1, h2.2.1 (by simp [lookupResults2]),
    h2.2.2.2.2 (by decide) hfields⟩

/-! ## Claim C7 -/

/-- C7: every tool invocation performs at most one outbound HTTP call, and
exactly one whenever it reaches the invoke step (a resolved workspace id for
the three tools that need one; always for get_spaces) — no retries and no
fan-out under any condition, including after an upstream error. -/
theorem capacities_c7_single_call (cfg : Config) (rt : Runtime)
    (text url term : String) (title description notes : Option String)
    (tags : Option (List String)) (sid : Option String) (nts : Bool) :
    (capacities_save_to_daily_note cfg rt text sid nts).2.length ≤ 1
    ∧ (sid.getD cfg.defaultSpaceId ≠ "" →
        (capacities_save_to_daily_note cfg rt text sid nts).2.length = 1)
    ∧ (capacities_save_weblink cfg rt url title description notes tags sid).2.length ≤ 1
    ∧ (sid.getD cfg.defaultSpaceId ≠ "" →
        (capacities_save_weblink cfg rt url title description notes tags sid).2.length = 1)
    ∧ (capacities_lookup cfg rt term sid).2.length ≤ 1
    ∧ (sid.getD cfg.defaultSpaceId ≠ "" →
        (capacities_lookup cfg rt term sid).2.length = 1)
    ∧ (capacities_get_spaces cfg rt).2.length = 1 := by
  by_cases h : sid.getD cfg.defaultSpaceId = ""
  · refine ⟨?_, fun hc => absurd h hc, ?_, fun hc => absurd h hc, ?_,
      fun hc => absurd h hc, ?_⟩
    · rw [daily_note_missing cfg rt text sid nts h]
      decide
    · rw [weblink_missing cfg rt url title description notes tags sid h]
      decide
    · rw [lookup_missing cfg rt term sid h]
      decide
    · rw [get_spaces_run]
      rfl
  · refine ⟨?_, fun _ => ?_, ?_, fun _ => ?_, ?_, fun _ => ?_, ?_⟩ <;>
      first
        | (rw [daily_note_run cfg rt text sid nts h]; rfl)
        | (rw [weblink_run cfg rt url title description notes tags sid h]; rfl)
        | (rw [lookup_run cfg rt term sid h]; rfl)
        | (rw [get_spaces_run]; rfl)
  
/-- C7 witness: each tool at concrete inputs, both with and without a
resolvable workspace id. -/
theorem capacities_c7_single_call_witness :
    (capacities_save_to_daily_note cfgNoDefault rtEmpty200 "hi" none false).2.length ≤ 1
    ∧ (capacities_save_to_daily_note cfgWithDefault rt500 "hi" none false).2.length = 1
    ∧ (capacities_save_weblink cfgWithDefault rt500 "https://example.com"
        none none none none none).2.length = 1
    ∧ (capacities_lookup cfgWithDefault rt500 "Foo" none).2.length = 1
    ∧ (capacities_get_spaces cfgWithDefault rt500).2.length = 1 := by
  have ha := capacities_c7_single_call cfgNoDefault rtEmpty200 "hi" "https://example.com"
    "Foo" none none none none none false
  have hb := capacities_c7_single_call cfgWithDefault rt500 "hi" "https://example.com"
    "Foo" none none none none none false
  exact ⟨ha.1, hb.2.1 (by decide), hb.2.2.2.1 (by decide), hb.2.2.2.2.2.1 (by decide),
    hb.2.2.2.2.2.2⟩

/-! ## Claim C8 -/

/-- C8: every outbound request built by any of the four tools carries the
bearer credential Authorization header and the JSON content negotiation
headers, and every request body it sends is the JSON serialization of some
JSON value (get_spaces sends no body at all). -/
theorem capacities_c8_headers (cfg : Config) (rt : Runtime)
    (text url term : String) (title description notes : Option String)
    (tags : Option (List String)) (sid : Option String) (nts : Bool) (q : FetchRequest) :
    (q ∈ (capacities_save_to_daily_note cfg rt text sid nts).2 →
      ("Authorization", "Bearer " ++ cfg.apiToken) ∈ q.headers
      ∧ ("Content-Type", "application/json") ∈ q.headers
      ∧ ("Accept", "application/json") ∈ q.headers
      ∧ ∃ j, q.body = some (Json.render j))
    ∧ (q ∈ (capacities_save_weblink cfg rt url title description notes tags sid).2 →
      ("Authorization", "Bearer " ++ cfg.apiToken) ∈ q.headers
      ∧ ("Content-Type", "application/json") ∈ q.headers
      ∧ ("Accept", "application/json") ∈ q.headers
      ∧ ∃ j, q.body = some (Json.render j))
    ∧ (q ∈ (capacities_lookup cfg rt term sid).2 →
      ("Authorization", "Bearer " ++ cfg.apiToken) ∈ q.headers
      ∧ ("Content-Type", "application/json") ∈ q.headers
      ∧ ("Accept", "application/json") ∈ q.headers
      ∧ ∃ j, q.body = some (Json.render j))
    ∧ (q ∈ (capacities_get_spaces cfg rt).2 →
      ("Authorization", "Bearer " ++ cfg.apiToken) ∈ q.headers
      ∧ ("Content-Type", "application/json") ∈ q.headers
      ∧ ("Accept", "application/json") ∈ q.headers
      ∧ q.body = none) := by
  refine ⟨?_, ?_, ?_, ?_⟩
  · intro hq
    by_cases h : sid.getD cfg.defaultSpaceId = ""
    · rw [daily_note_missing cfg rt text sid nts h] at hq
      exact absurd hq (List.not_mem_nil q)
    · rw [daily_note_run cfg rt text sid nts h] at hq
      rw [List.mem_singleton.mp hq]
      exact ⟨by simp [dailyNoteRequest, mkCapacitiesFetchRequest, capacitiesHeaders],
        by simp [dailyNoteRequest, mkCapacitiesFetchRequest, capacitiesHeaders],
        by simp [dailyNoteRequest, mkCapacitiesFetchRequest, capacitiesHeaders],
        dailyNoteBody (sid.getD cfg.defaultSpaceId) text nts, rfl⟩
  · intro hq
    by_cases h : sid.getD cfg.defaultSpaceId = ""
    · rw [weblink_missing cfg rt url title description notes tags sid h] at hq
      exact absurd hq (List.not_mem_nil q)
    · rw [weblink_run cfg rt url title description notes tags sid h] at hq
      rw [List.mem_singleton.mp hq]
      exact ⟨by simp [weblinkRequest, mkCapacitiesFetchRequest, capacitiesHeaders],
        by simp [weblinkRequest, mkCapacitiesFetchRequest, capacitiesHeaders],
        by simp [weblinkRequest, mkCapacitiesFetchRequest, capacitiesHeaders],
        weblinkBody (sid.getD cfg.defaultSpaceId) url title description notes tags, rfl⟩
  · intro hq
    by_cases h : sid.getD cfg.defaultSpaceId = ""
    · rw [lookup_missing cfg rt term sid h] at hq
      exact absurd hq (List.not_mem_nil q)
    · rw [lookup_run cfg rt term sid h] at hq
      rw [List.mem_singleton.mp hq]
      exact ⟨by simp [lookupRequest, mkCapacitiesFetchRequest, capacitiesHeaders],
        by simp [lookupRequest, mkCapacitiesFetchRequest, capacitiesHeaders],
        by simp [lookupRequest, mkCapacitiesFetchRequest, capacitiesHeaders],
        lookupBody term (sid.getD cfg.defaultSpaceId), rfl⟩
  · intro hq
    rw [get_spaces_run] at hq
    rw [List.mem_singleton.mp hq]
    exact ⟨by simp [spacesRequest, mkCapacitiesFetchRequest, capacitiesHeaders],
      by simp [spacesRequest, mkCapacitiesFetchRequest, capacitiesHeaders],
      by simp [spacesRequest, mkCapacitiesFetchRequest, capacitiesHeaders], rfl⟩

/-- C8 witness: applied to the concrete requests emitted by get_spaces and
save_to_daily_note at fixture inputs. -/
theorem capacities_c8_headers_witness :
    (("Authorization", "Bearer token123") ∈ (spacesRequest cfgWithDefault).headers
      ∧ ("Content-Type", "application/json") ∈ (spacesRequest cfgWithDefault).headers
      ∧ ("Accept", "application/json") ∈ (spacesRequest cfgWithDefault).headers
      ∧ (spacesRequest cfgWithDefault).body = none)
    ∧ (("Authorization", "Bearer token123") ∈
          (dailyNoteRequest cfgWithDefault "space-1" "hi" false).headers
      ∧ ("Content-Type", "application/json") ∈
          (dailyNoteRequest cfgWithDefault "space-1" "hi" false).headers
      ∧ ("Accept", "application/json") ∈
          (dailyNoteRequest cfgWithDefault "space-1" "hi" false).headers
      ∧ ∃ j, (dailyNoteRequest cfgWithDefault "space-1" "hi" false).body =
          some (Json.render j)) := by
  have h := capacities_c8_headers cfgWithDefault rtEmpty200 "hi" "https://example.com"
    "Foo" none none none none none false
  constructor
  · exact (h (spacesRequest cfgWithDefault)).2.2.2 (by rw [get_spaces_run]; simp)
  · exact (h (dailyNoteRequest cfgWithDefault "space-1" "hi" false)).1 (by
      rw [daily_note_run cfgWithDefault rtEmpty200 "hi" none false (by decide)]
      simp only [List.mem_singleton]
      rfl)

/-! ## Claim C9 -/

/-- C9: for save_weblink, an empty-string title, description or notes passes
its declared zod length bound but is omitted from the outbound request body
exactly as if it had not been provided (the whole handler behaves
identically), whereas an empty tags array passes validation and is included
in the body as an empty list. -/
theorem capacities_c9_empty_overrides (cfg : Config) (rt : Runtime) (url ts : String)
    (tags : Option (List String)) (sid : Option String) :
    titleValid (some "") = true
    ∧ descriptionValid (some "") = true
    ∧ notesValid (some "") = true
    ∧ tagsValid (some []) = true
    ∧ weblinkBody ts url (some "") (some "") (some "") tags =
        weblinkBody ts url none none none tags
    ∧ capacities_save_weblink cfg rt url (some "") (some "") (some "") tags sid =
        capacities_save_weblink cfg rt url none none none tags sid
    ∧ weblinkBody ts url none none none (some []) =
        Json.obj [("spaceId", Json.str ts), ("url", Json.str url), ("tags", Json.arr [])] := by
  exact ⟨rfl, rfl, rfl, rfl, rfl, rfl, rfl⟩

/-! ## Claim C10 -/

/-- C10: empty-string environment configuration is treated as absent — an
unset or empty credential token makes startup write the diagnostic and exit
with status 1 (non-zero) without reaching tool registration, while an empty
default workspace id leaves the server running and makes every tool that
needs a workspace id and receives no explicit spaceId take the textual
missing-workspace error path with no outbound call. -/
theorem capacities_c10_empty_env (envSpace : Option String) (tok : String)
    (cfg : Config) (rt : Runtime) (text url term : String)
    (title description notes : Option String) (tags : Option (List String)) (nts : Bool)
    (htok : tok ≠ "") (hcfg : cfg.defaultSpaceId = "") :
    startProcess none envSpace = .exited tokenErrorText 1
    ∧ startProcess (some "") envSpace = .exited tokenErrorText 1
    ∧ startProcess (some tok) (some "") =
        .running { apiToken := tok, defaultSpaceId := "" } toolNames
    ∧ capacities_save_to_daily_note cfg rt text none nts = (.reply missingSpaceText, [])
    ∧ capacities_save_weblink cfg rt url title description notes tags none =
        (.reply missingSpaceText, [])
    ∧ capacities_lookup cfg rt term none = (.reply missingSpaceText, []) := by
  refine ⟨rfl, rfl, ?_, daily_note_missing cfg rt text none nts hcfg,
    weblink_missing cfg rt url title description notes tags none hcfg,
    lookup_missing cfg rt term none hcfg⟩
  unfold startProcess
  rw [if_neg (by simpa using htok)]
  rfl

/-- C10 witness: the theorem applied at a concrete token and at the fixture
configuration whose default workspace id is empty. -/
theorem capacities_c10_empty_env_witness :
    startProcess none (some "space-1") = .exited tokenErrorText 1
    ∧ startProcess (some "") (some "space-1") = .exited tokenErrorText 1
    ∧ startProcess (some "token123") (some "") =
        .running { apiToken := "token123", defaultSpaceId := "" } toolNames
    ∧ capacities_save_to_daily_note cfgNoDefault rtEmpty200 "hi" none false =
        (.reply missingSpaceText, [])
    ∧ capacities_save_weblink cfgNoDefault rtEmpty200 "https://example.com"
        none none none none none = (.reply missingSpaceText, [])
    ∧ capacities_lookup cfgNoDefault rtEmpty200 "Foo" none = (.reply missingSpaceText, []) :=
  capacities_c10_empty_env (some "space-1") "token123" cfgNoDefault rtEmpty200
    "hi" "https://example.com" "Foo" none none none none false (by decide) rfl
